import Mathlib

/-!
Verification of the US-stock-agent technical-analysis core.

Shallow embedding of `technical_analysis.py`, `signal_generator.py` and the
constants of `config.py`.  Prices and scores are modelled as rationals
(the source computes in IEEE doubles; none of the properties below depends
on rounding).  A pandas value that is NaN because a rolling window lacks
history is modelled as `Option.none`; a NaN comparison is false, exactly as
in numpy, and this is captured by the `opt*` comparison functions below.
-/

set_option autoImplicit false

namespace StockAgent

/-! ### Configuration constants (config.py) -/

/-- TECHNICAL_CONFIG ma_periods, config.py line 22. -/
def ma_periods : List Nat := [5, 10, 20, 50]

/-- TECHNICAL_CONFIG rsi_period, config.py line 15. -/
def rsi_period : Nat := 14

/-- TECHNICAL_CONFIG macd_fast / macd_slow / macd_signal, config.py lines 16-18. -/
def macd_fast : Nat := 12

/-- MACD slow span. -/
def macd_slow : Nat := 26

/-- MACD signal span. -/
def macd_signal_span : Nat := 9

/-- TECHNICAL_CONFIG bb_period, config.py line 19. -/
def bb_period : Nat := 20

/-- TECHNICAL_CONFIG bb_std (standard-deviation multiplier), config.py line 20. -/
def bb_std_mult : ℚ := 2

/-- TECHNICAL_CONFIG volume_ma_period, config.py line 21. -/
def volume_ma_period : Nat := 20

/-- SCORING_CONFIG technical_weight, config.py line 35. -/
def technical_weight : ℚ := 6/10

/-- SCORING_CONFIG sentiment_weight, config.py line 36. -/
def sentiment_weight : ℚ := 4/10

/-- Signal thresholds (the shape of the SIGNAL_THRESHOLDS dict, config.py
lines 40-45).  The engine reads the four entries by key, so we carry them as
a structure and instantiate the defaults below. -/
structure SignalThresholds where
  strong_buy : ℚ
  buy : ℚ
  sell : ℚ
  strong_sell : ℚ
  deriving Repr, DecidableEq

/-- The default SIGNAL_THRESHOLDS of config.py. -/
def SIGNAL_THRESHOLDS : SignalThresholds :=
  { strong_buy := 60, buy := 30, sell := -30, strong_sell := -60 }

/-- RISK_CONFIG stop_loss_pct, config.py line 49. -/
def stop_loss_pct_config : ℚ := 3/100

/-- RISK_CONFIG atr_multiplier, config.py line 51. -/
def atr_multiplier : ℚ := 2

/-! ### Rolling-window primitives

pandas `Series.rolling(window=w).mean()` at the last index is the mean of
the last `w` entries when at least `w` entries exist, and NaN (here: `none`)
otherwise.  The value at the second-to-last index is the same computation on
the list with its last element removed (`List.dropLast`). -/

/-- Value at the last index of `rolling(window=w).mean()`. -/
def rollingMeanLast (w : Nat) (xs : List ℚ) : Option ℚ :=
  if 0 < w ∧ w ≤ xs.length then
    some ((xs.drop (xs.length - w)).sum / (w : ℚ))
  else none

/-- Value at the last index of `rolling(window=w).std()` squared, i.e. the
sample variance with pandas' default ddof = 1 (divisor `w - 1`).  The source
takes the square root of this to build the Bollinger bands; the square root
is kept implicit (see `boll_signal_of` and `bb_position_of`), since every
comparison against the bands can be carried out exactly on the variance. -/
def rollingVarLast (w : Nat) (xs : List ℚ) : Option ℚ :=
  if 2 ≤ w ∧ w ≤ xs.length then
    let win := xs.drop (xs.length - w)
    let m := win.sum / (w : ℚ)
    some ((win.map (fun x => (x - m) ^ 2)).sum / ((w : ℚ) - 1))
  else none

/-! ### NaN-style comparisons on optional values

numpy comparisons with NaN are false; a missing rolling value is `none`,
so each comparison returns `false` unless both sides are present. -/

/-- Less-or-equal with NaN semantics. -/
def optLE : Option ℚ → Option ℚ → Bool
  | some a, some b => a ≤ b
  | _, _ => false

/-- Greater-or-equal with NaN semantics. -/
def optGE : Option ℚ → Option ℚ → Bool
  | some a, some b => b ≤ a
  | _, _ => false

/-- Strictly-less with NaN semantics. -/
def optLT : Option ℚ → Option ℚ → Bool
  | some a, some b => a < b
  | _, _ => false

/-- Strictly-greater with NaN semantics. -/
def optGT : Option ℚ → Option ℚ → Bool
  | some a, some b => b < a
  | _, _ => false

/-! ### Data model -/

/-- One OHLCV bar.  The engine reads only High, Low, Close and Volume
(the Open and date columns are never consulted by the analysis code). -/
structure PriceBar where
  high : ℚ
  low : ℚ
  close : ℚ
  volume : ℚ
  deriving Repr, DecidableEq

/-- ma_alignment label, technical_analysis.py line 43. -/
inductive Alignment | bullish | bearish | mixed
  deriving Repr, DecidableEq

/-- Crossover label for ma_cross and macd signals
(the source strings golden_cross / death_cross / none). -/
inductive Cross | golden_cross | death_cross | no_cross
  deriving Repr, DecidableEq

/-- RSI signal label, technical_analysis.py lines 75-80. -/
inductive RsiSignal | overbought | oversold | neutral
  deriving Repr, DecidableEq

/-- Bollinger signal label, technical_analysis.py lines 136-141. -/
inductive BollSignal | above_upper | below_lower | within_bands
  deriving Repr, DecidableEq

/-- Volume signal label, technical_analysis.py lines 155-160. -/
inductive VolumeSignal | high | low | normal
  deriving Repr, DecidableEq

/-- The indicator values and signal labels that `get_trend_score` reads,
i.e. the relevant projection of the source's `self.indicators` and
`self.signals` dicts after `calculate_all`.  A numeric entry that is NaN
(insufficient history) is `none`; `ma_cross`, `macd` and `macd_hist` are
`none` when the respective dict key was never set (series shorter than 2
bars), which `dict.get` turns into the same neutral treatment.  The
numeric Bollinger-band entries (`bb_upper`, `bb_middle`, `bb_lower`,
`bb_position`) are irrational in general and are never read by the trend
scorer; the degenerate-band behaviour of `bb_position` is modelled
separately by `bb_position_of`. -/
structure IndicatorSet where
  ma_alignment : Alignment
  ma_cross : Option Cross
  macd : Option Cross
  macd_hist : Option ℚ
  rsi : Option ℚ
  rsi_signal : RsiSignal
  bollinger : BollSignal
  volume_ratio : ℚ
  volume : VolumeSignal
  atr : Option ℚ
  deriving Repr, DecidableEq

/-- Close column of a bar list. -/
def closesOf (bars : List PriceBar) : List ℚ := bars.map (·.close)

/-- The last element of a column, modelling `.iloc[-1]`.  The default is
reachable only for the empty frame, where the source has already raised
IndexError (see the Except wrappers below). -/
def lastD (xs : List ℚ) : ℚ := xs.getLast?.getD 0

/-! ### Indicator Engine (technical_analysis.py) -/

/-- Crossover classification on the last two bars, shared verbatim by the MA
crossover (lines 52-57) and the MACD crossover (lines 102-107): golden cross
when the fast line was ≤ the slow line one bar ago and is strictly above it
now, death cross for the mirror condition, else none.  Arguments are the
previous and current values of the fast and slow lines; a NaN (`none`)
anywhere makes both comparisons false, yielding `no_cross`, exactly as the
float comparisons do in the source. -/
def crossSignalOf (fastPrev slowPrev fastCurr slowCurr : Option ℚ) : Cross :=
  if optLE fastPrev slowPrev && optGT fastCurr slowCurr then .golden_cross
  else if optGE fastPrev slowPrev && optLT fastCurr slowCurr then .death_cross
  else .no_cross

/-- The ma_cross signal of calculate_ma, technical_analysis.py lines 45-57:
guarded by `len(df) >= 2` (no dict entry — `none` — below that), and
comparing MA5 against MA20 at the last two bars. -/
def ma_cross (closes : List ℚ) : Option Cross :=
  if 2 ≤ closes.length then
    some (crossSignalOf (rollingMeanLast 5 closes.dropLast)
      (rollingMeanLast 20 closes.dropLast)
      (rollingMeanLast 5 closes) (rollingMeanLast 20 closes))
  else none

/-- Specification-side definition for the MA-crossover refinement claim.
It follows the spec's words — compare the TWO SHORTEST configured windows
(5 and 10 under the default list [5,10,20,50]) at the last two bars, with
the same golden/death/none rule — and is compared against the source's
`ma_cross`, which instead pairs MA5 with MA20. -/
def ma_cross_spec (closes : List ℚ) : Option Cross :=
  if 2 ≤ closes.length then
    some (crossSignalOf (rollingMeanLast 5 closes.dropLast)
      (rollingMeanLast 10 closes.dropLast)
      (rollingMeanLast 5 closes) (rollingMeanLast 10 closes))
  else none

/-- The ma_alignment label of calculate_ma, lines 38-43: bullish when the
four rolling means at the last bar are strictly decreasing along the
configured period list [5, 10, 20, 50], bearish when strictly increasing,
else mixed.  NaN entries (short series) make every comparison false, so a
series shorter than 50 bars is classified mixed. -/
def ma_alignment_of (closes : List ℚ) : Alignment :=
  let m5 := rollingMeanLast 5 closes
  let m10 := rollingMeanLast 10 closes
  let m20 := rollingMeanLast 20 closes
  let m50 := rollingMeanLast 50 closes
  if optGT m5 m10 && optGT m10 m20 && optGT m20 m50 then .bullish
  else if optLT m5 m10 && optLT m10 m20 && optLT m20 m50 then .bearish
  else .mixed

/-- calculate_ma, lines 33-57.  The Except models the `.iloc[-1]` accesses
on line 39, which raise IndexError when the frame is empty; for a nonempty
frame the function returns the alignment label and the optional crossover
signal. -/
def calculate_ma (bars : List PriceBar) : Except Unit (Alignment × Option Cross) :=
  let closes := closesOf bars
  if closes.isEmpty then .error ()
  else .ok (ma_alignment_of closes, ma_cross closes)

/-- Close-to-close differences: pandas `Series.diff()` without its leading
NaN (length n-1 for n closes). -/
def deltas (closes : List ℚ) : List ℚ :=
  (closes.drop 1).zipWith (· - ·) closes.dropLast

/-- The gain series of calculate_rsi line 65.  `delta.where(delta > 0, 0)`
replaces both non-positive deltas and the leading NaN of `diff()` by 0, so
for a nonempty close list the gain list starts with 0 and then keeps the
positive deltas. -/
def gains (closes : List ℚ) : List ℚ :=
  match closes with
  | [] => []
  | _ :: _ => 0 :: (deltas closes).map (fun d => if 0 < d then d else 0)

/-- The loss series of calculate_rsi line 66 (negated negative deltas,
leading NaN of `diff()` replaced by 0). -/
def losses (closes : List ℚ) : List ℚ :=
  match closes with
  | [] => []
  | _ :: _ => 0 :: (deltas closes).map (fun d => if d < 0 then -d else 0)

/-- Rolling average gain at the last bar (line 65). -/
def avg_gain (closes : List ℚ) : Option ℚ := rollingMeanLast rsi_period (gains closes)

/-- Rolling average loss at the last bar (line 66). -/
def avg_loss (closes : List ℚ) : Option ℚ := rollingMeanLast rsi_period (losses closes)

/-- The RSI value at the last bar, lines 64-69: RSI = 100 − 100/(1 + rs)
with rs = avg_gain/avg_loss.  The source divides IEEE doubles: when
avg_loss = 0 and avg_gain > 0 the ratio is +∞ and the expression evaluates
to 100 − 0 = 100; when both are 0 the ratio is NaN and so is the RSI
(modelled `none`, like the insufficient-history case). -/
def rsi (closes : List ℚ) : Option ℚ :=
  match avg_gain closes, avg_loss closes with
  | some g, some l =>
      if l = 0 then (if 0 < g then some 100 else none)
      else some (100 - 100 / (1 + g / l))
  | _, _ => none

/-- The RSI signal, lines 75-80: overbought above 70, oversold below 30,
else neutral (a NaN RSI falls through both comparisons to neutral). -/
def rsi_signal_of (r : Option ℚ) : RsiSignal :=
  if optGT r (some 70) then .overbought
  else if optLT r (some 30) then .oversold
  else .neutral

/-- calculate_rsi, lines 59-80.  The Except models the `.iloc[-1]` access
on line 71, which raises on an empty frame. -/
def calculate_rsi (bars : List PriceBar) : Except Unit (Option ℚ × RsiSignal) :=
  let closes := closesOf bars
  if closes.isEmpty then .error ()
  else .ok (rsi closes, rsi_signal_of (rsi closes))

/-- Tail of an unadjusted EMA: each output is a·x + (1−a)·previous. -/
def emaFrom (a : ℚ) (prev : ℚ) : List ℚ → List ℚ
  | [] => []
  | x :: rest =>
      let e := a * x + (1 - a) * prev
      e :: emaFrom a e rest

/-- Unadjusted exponential moving average, pandas
`ewm(span=s, adjust=False).mean()`: α = 2/(s+1), seeded at the first value. -/
def ema (span : Nat) : List ℚ → List ℚ
  | [] => []
  | x :: rest => x :: emaFrom (2 / ((span : ℚ) + 1)) x rest

/-- The MACD line, line 91: EMA(12) − EMA(26) of the closes. -/
def macd_line (closes : List ℚ) : List ℚ :=
  (ema macd_fast closes).zipWith (· - ·) (ema macd_slow closes)

/-- The MACD signal line, line 92: EMA(9) of the MACD line. -/
def macd_signal_line (closes : List ℚ) : List ℚ :=
  ema macd_signal_span (macd_line closes)

/-- calculate_macd, lines 82-111: returns the crossover signal and the last
histogram value (MACD − signal line).  Both dict entries are set only under
the `len(df) >= 2` guard, hence `none` below two bars; the EMA recurrence
itself needs no minimum history, so no NaN arises above the guard. -/
def calculate_macd (bars : List PriceBar) : Option Cross × Option ℚ :=
  let closes := closesOf bars
  if 2 ≤ closes.length then
    let m := macd_line closes
    let s := macd_signal_line closes
    (some (crossSignalOf m.dropLast.getLast? s.dropLast.getLast? m.getLast? s.getLast?),
     (m.zipWith (· - ·) s).getLast?)
  else (none, none)

/-- The Bollinger signal of calculate_bollinger_bands, lines 136-141, for a
last close c, rolling mean m and rolling variance v of the closes: the
source compares c against m ± 2·√v.  √v being irrational in general, the
comparison is carried out exactly in its squared form
(c > m + 2·√v  ↔  0 < c − m ∧ 4·v < (c − m)², for v ≥ 0), which is
equivalent for the source's real-valued semantics; a missing mean or
variance (NaN bands) makes both comparisons false, giving within_bands. -/
def boll_signal_of (c : ℚ) (mv : Option (ℚ × ℚ)) : BollSignal :=
  match mv with
  | some (m, v) =>
      if 0 < c - m ∧ 4 * v < (c - m) ^ 2 then .above_upper
      else if 0 < m - c ∧ 4 * v < (m - c) ^ 2 then .below_lower
      else .within_bands
  | none => .within_bands

/-- The bb_position expression of line 133,
(current − lower)/(upper − lower) × 100, as a function of the current price
and the two band values.  The source has no degenerate-width guard: when
upper = lower the IEEE division yields NaN (the reachable zero-width case
has current = lower, so it is 0/0), modelled `none`. -/
def bb_position_of (current bb_lower bb_upper : ℚ) : Option ℚ :=
  if bb_upper - bb_lower = 0 then none
  else some ((current - bb_lower) / (bb_upper - bb_lower) * 100)

/-- The rolling mean and variance over the Bollinger window at the last
bar, both present exactly when the window has enough history. -/
def bb_mean_var (closes : List ℚ) : Option (ℚ × ℚ) :=
  match rollingMeanLast bb_period closes, rollingVarLast bb_period closes with
  | some m, some v => some (m, v)
  | _, _ => none

/-- The Bollinger signal of a bar list: last close against the bands. -/
def boll_signal (bars : List PriceBar) : BollSignal :=
  boll_signal_of (lastD (closesOf bars)) (bb_mean_var (closesOf bars))

/-- calculate_bollinger_bands, lines 113-141, reduced to the signal label
(the numeric band entries are irrational in general and never read by the
trend scorer; their degenerate behaviour is covered by `bb_position_of`).
The Except models the `.iloc[-1]` access on line 123. -/
def calculate_bollinger (bars : List PriceBar) : Except Unit BollSignal :=
  if (closesOf bars).isEmpty then .error ()
  else .ok (boll_signal bars)

/-- Volume column of a bar list. -/
def volumesOf (bars : List PriceBar) : List ℚ := bars.map (·.volume)

/-- The volume ratio of calculate_volume_indicators, lines 149-153: latest
volume / rolling mean volume when that mean is > 0 (a NaN mean fails the
`> 0` test, like a zero one, so the ratio defaults to 1). -/
def volume_ratio_of (bars : List PriceBar) : ℚ :=
  let vols := volumesOf bars
  let avg := rollingMeanLast volume_ma_period vols
  if optGT avg (some 0) then lastD vols / avg.getD 1 else 1

/-- The high/low/normal volume label from the 1.5 / 0.5 thresholds. -/
def volume_signal_of (ratio : ℚ) : VolumeSignal :=
  if 3/2 < ratio then .high else if ratio < 1/2 then .low else .normal

/-- calculate_volume_indicators as an Except wrapper (the `.iloc[-1]`
accesses on lines 149-150 raise on an empty frame). -/
def calculate_volume (bars : List PriceBar) : Except Unit (ℚ × VolumeSignal) :=
  if (volumesOf bars).isEmpty then .error ()
  else .ok (volume_ratio_of bars, volume_signal_of (volume_ratio_of bars))

/-- The true-range series of calculate_atr, lines 167-175: per bar the
maximum of high − low, |high − previous close| and |low − previous close|.
The first bar has no previous close; its tr2 and tr3 are NaN in the source
and `max(axis=1)` skips NaN, so the first true range degenerates to
high − low. -/
def trueRanges : List PriceBar → List ℚ
  | [] => []
  | b :: rest => (b.high - b.low) :: trueRangesFrom b rest
where
  /-- True ranges of the tail, threading the previous bar's close. -/
  trueRangesFrom (prev : PriceBar) : List PriceBar → List ℚ
    | [] => []
    | b :: rest =>
        max (b.high - b.low) (max |b.high - prev.close| |b.low - prev.close|) ::
          trueRangesFrom b rest

/-- The ATR value at the last bar: rolling mean of the true ranges over
`rsi_period` (line 165 reuses TECHNICAL_CONFIG rsi_period = 14, not
RISK_CONFIG atr_period, which happens to hold the same value). -/
def atr_of (bars : List PriceBar) : Option ℚ :=
  rollingMeanLast rsi_period (trueRanges bars)

/-- calculate_atr, lines 162-178.  The Except models the `.iloc[-1]` access
on line 178. -/
def calculate_atr (bars : List PriceBar) : Except Unit (Option ℚ) :=
  if (trueRanges bars).isEmpty then .error ()
  else .ok (atr_of bars)

/-- calculate_all, lines 24-31: runs the six indicator computations in
source order and collects the entries that the trend scorer reads.  An
empty frame makes the first unguarded `.iloc[-1]` raise (modelled as the
error case); every longer series goes through. -/
def computeAll (bars : List PriceBar) : Except Unit IndicatorSet :=
  match calculate_ma bars with
  | .error e => .error e
  | .ok ma =>
    match calculate_rsi bars with
    | .error e => .error e
    | .ok rsiR =>
      let macdR := calculate_macd bars
      match calculate_bollinger bars with
      | .error e => .error e
      | .ok bollSig =>
        match calculate_volume bars with
        | .error e => .error e
        | .ok volR =>
          match calculate_atr bars with
          | .error e => .error e
          | .ok atrVal =>
            .ok { ma_alignment := ma.1, ma_cross := ma.2, macd := macdR.1,
                  macd_hist := macdR.2, rsi := rsiR.1, rsi_signal := rsiR.2,
                  bollinger := bollSig, volume_ratio := volR.1,
                  volume := volR.2, atr := atrVal }

/-! ### Trend Scorer (technical_analysis.py, get_trend_score) -/

/-- get_trend_score, lines 180-234, as the source writes it: a running
`score` accumulated clause by clause (MA alignment ±30, MA crossover ±20,
MACD ±20/±10, RSI ±15/+5, Bollinger ±10, then the ±5 volume clause that
reads the sign of the running total), finally clamped to [−100, 100] by
`max(-100, min(100, score))`.  A `none` numeric entry reproduces the NaN
comparisons (all false); a `none` signal entry reproduces `dict.get`
returning None (matching no label). -/
def get_trend_score (ind : IndicatorSet) : ℚ :=
  let score : ℚ := 0
  let score := score +
    (if ind.ma_alignment = .bullish then 30
     else if ind.ma_alignment = .bearish then -30 else 0)
  let score := score +
    (if ind.ma_cross = some .golden_cross then 20
     else if ind.ma_cross = some .death_cross then -20 else 0)
  let score := score +
    (if ind.macd = some .golden_cross then 20
     else if ind.macd = some .death_cross then -20
     else if 0 < ind.macd_hist.getD 0 then 10
     else if ind.macd_hist.getD 0 < 0 then -10 else 0)
  let score := score +
    (if optGT ind.rsi (some 70) then -15
     else if optLT ind.rsi (some 30) then 15
     else if optLE (some 40) ind.rsi && optLE ind.rsi (some 60) then 5 else 0)
  let score := score +
    (if ind.bollinger = .below_lower then 10
     else if ind.bollinger = .above_upper then -10 else 0)
  let score :=
    if ind.volume = .high then (if 0 < score then score + 5 else score - 5)
    else score
  max (-100) (min 100 score)

/-- The MA-alignment clause of the rubric (±30). -/
def alignClause (a : Alignment) : ℚ :=
  if a = .bullish then 30 else if a = .bearish then -30 else 0

/-- The MA-crossover clause of the rubric (±20; the dict lookup
`signals.get` returns None when the key was never set, matching neither
label, hence 0 for a missing crossover). -/
def crossClause (c : Option Cross) : ℚ :=
  if c = some .golden_cross then 20
  else if c = some .death_cross then -20 else 0

/-- The MACD clause of the rubric (±20 on a crossover, else ±10 on the
histogram sign, crossover taking precedence).  `indicators.get
with default 0` is `Option.getD 0`: a missing histogram contributes 0. -/
def macdClause (c : Option Cross) (hist : Option ℚ) : ℚ :=
  if c = some .golden_cross then 20
  else if c = some .death_cross then -20
  else if 0 < hist.getD 0 then 10
  else if hist.getD 0 < 0 then -10 else 0

/-- The RSI clause of the rubric, lines 211-218: −15 above 70, +15 below
30, +5 in [40, 60], else 0.  The rsi dict entry is always written by
calculate_rsi, so the lookup default 50 is unreachable through
calculate_all; an RSI that is NaN for lack of history fails every
comparison (the opt* functions) and contributes 0. -/
def rsiClause (r : Option ℚ) : ℚ :=
  if optGT r (some 70) then -15
  else if optLT r (some 30) then 15
  else if optLE (some 40) r && optLE r (some 60) then 5 else 0

/-- The Bollinger clause of the rubric (±10). -/
def bollClause (b : BollSignal) : ℚ :=
  if b = .below_lower then 10 else if b = .above_upper then -10 else 0

/-- The partial rubric sum before the volume clause. -/
def preVolumeScore (ind : IndicatorSet) : ℚ :=
  alignClause ind.ma_alignment + crossClause ind.ma_cross +
    macdClause ind.macd ind.macd_hist + rsiClause ind.rsi +
    bollClause ind.bollinger

/-- The volume adjustment: ±5 applied only on a high-volume signal, signed
by the pre-volume partial sum. -/
def volumeAdj (v : VolumeSignal) (pre : ℚ) : ℚ :=
  if v = .high then (if 0 < pre then 5 else -5) else 0

/-- The unclamped rubric total: all clauses summed, volume clause last. -/
def rawScore (ind : IndicatorSet) : ℚ :=
  preVolumeScore ind + volumeAdj ind.volume (preVolumeScore ind)

/-- An IndicatorSet with every indicator missing or neutral, as produced by
`calculate_all` on a series too short for every rolling window. -/
def missingIndicatorSet : IndicatorSet :=
  { ma_alignment := .mixed, ma_cross := none, macd := none, macd_hist := none,
    rsi := none, rsi_signal := .neutral, bollinger := .within_bands,
    volume_ratio := 1, volume := .normal, atr := none }

/-! ### Signal & Risk Engine (signal_generator.py) -/

/-- The composite score of SignalGenerator.__init__, lines 29-32:
technical × 0.6 + sentiment × 0.4. -/
def composite_score (technical_score sentiment_score : ℚ) : ℚ :=
  technical_score * technical_weight + sentiment_score * sentiment_weight

/-- Signal category labels of generate_signal, lines 44-68 (the source's
Chinese strings 强烈买入 / 买入 / 持有 / 卖出 / 强烈卖出). -/
inductive SignalCat | strong_sell | sell | hold | buy | strong_buy
  deriving Repr, DecidableEq

/-- Strength order of the signal categories,
strong-sell < sell < hold < buy < strong-buy. -/
def signalRank : SignalCat → Nat
  | .strong_sell => 0
  | .sell => 1
  | .hold => 2
  | .buy => 3
  | .strong_buy => 4

/-- The threshold chain of generate_signal, lines 44-68: the four bands are
evaluated top down on the composite score, each test strict
(score > threshold). -/
def generate_signal_cat (t : SignalThresholds) (score : ℚ) : SignalCat :=
  if t.strong_buy < score then .strong_buy
  else if t.buy < score then .buy
  else if t.sell < score then .hold
  else if t.strong_sell < score then .sell
  else .strong_sell

/-- Stop-loss method labels of calculate_risk_metrics (the source strings
are ATR and 固定百分比, i.e. fixed percentage). -/
inductive StopMethod | ATR | fixed_pct
  deriving Repr, DecidableEq

/-- Volatility / risk level labels, lines 113-121 (低 / 中 / 高). -/
inductive VolLevel | low | medium | high
  deriving Repr, DecidableEq

/-- Position-size suggestion bands, lines 124-133. -/
inductive PosBand | p40_50 | p30_40 | p20_30 | p10_20 | p0_10
  deriving Repr, DecidableEq

/-- The risk metrics of calculate_risk_metrics, lines 80-146.  The source
rounds each numeric entry to two decimals with Python's round when building
the returned dict; the fields here carry the computed values before that
display rounding (the claims below concern the computed values). -/
structure RiskMetrics where
  stop_loss : ℚ
  stop_loss_pct : ℚ
  stop_loss_method : StopMethod
  target_price : ℚ
  target_pct : ℚ
  volatility_pct : ℚ
  volatility_level : VolLevel
  risk_level : VolLevel
  position_suggestion : PosBand
  deriving Repr, DecidableEq

/-- calculate_risk_metrics, lines 80-146: ATR stop at
current_price − atr × 2.0, fixed stop at current_price × (1 − 0.03), the
higher of the two chosen and labelled, target at current_price + 2 × risk,
volatility banding on atr/current_price × 100, position band on the
composite score.  (In the percentage expressions the source divides by
current_price; the claims only evaluate them for current_price > 0, where
rational and IEEE division agree.) -/
def calculate_risk_metrics (comp current_price atr : ℚ) : RiskMetrics :=
  let atr_stop_loss := current_price - atr * atr_multiplier
  let atr_stop_loss_pct := (current_price - atr_stop_loss) / current_price * 100
  let pct_stop_loss := current_price * (1 - stop_loss_pct_config)
  let pct_stop_loss_pct := stop_loss_pct_config * 100
  let chosen :=
    if pct_stop_loss < atr_stop_loss then
      (atr_stop_loss, atr_stop_loss_pct, StopMethod.ATR)
    else
      (pct_stop_loss, pct_stop_loss_pct, StopMethod.fixed_pct)
  let stop_loss := chosen.1
  let risk_amount := current_price - stop_loss
  let target_price := current_price + risk_amount * 2
  let target_pct := (target_price - current_price) / current_price * 100
  let volatility_pct := atr / current_price * 100
  let vol_level : VolLevel :=
    if volatility_pct < 1 then .low else if volatility_pct < 2 then .medium else .high
  let pos : PosBand :=
    if 60 < comp then .p40_50
    else if 30 < comp then .p30_40
    else if 0 < comp then .p20_30
    else if -30 < comp then .p10_20
    else .p0_10
  { stop_loss := stop_loss, stop_loss_pct := chosen.2.1,
    stop_loss_method := chosen.2.2, target_price := target_price,
    target_pct := target_pct, volatility_pct := volatility_pct,
    volatility_level := vol_level, risk_level := vol_level,
    position_suggestion := pos }

/-! ### Helper lemmas -/

/-- The volume step of get_trend_score (add or subtract 5 from the running
score when volume is high) written as adding a separate adjustment. -/
theorem volume_step_eq (v : VolumeSignal) (S : ℚ) :
    (if v = .high then (if 0 < S then S + 5 else S - 5) else S)
      = S + volumeAdj v S := by
  unfold volumeAdj
  by_cases h : v = .high
  · simp only [h, if_true]
    split_ifs <;> ring
  · simp [h]

/-- The sequential accumulation of get_trend_score equals the clamped sum
of the five rubric clauses plus the volume adjustment computed from that
partial sum. -/
theorem get_trend_score_eq_clamp (ind : IndicatorSet) :
    get_trend_score ind
      = max (-100) (min 100 (preVolumeScore ind
          + volumeAdj ind.volume (preVolumeScore ind))) := by
  simp only [get_trend_score, zero_add]
  rw [volume_step_eq]
  rfl

/-- A rolling mean at the last bar is present as soon as the window fits. -/
theorem rollingMeanLast_eq_of_le (w : Nat) (xs : List ℚ) (hw : 0 < w)
    (h : w ≤ xs.length) :
    rollingMeanLast w xs = some ((xs.drop (xs.length - w)).sum / (w : ℚ)) := by
  unfold rollingMeanLast
  exact if_pos ⟨hw, h⟩

/-- The rolling mean of a constant series is that constant once the window
fits. -/
theorem rollingMeanLast_replicate (w n : Nat) (c : ℚ) (hw : 0 < w)
    (h : w ≤ n) :
    rollingMeanLast w (List.replicate n c) = some c := by
  have hw0 : ((w : ℚ)) ≠ 0 := Nat.cast_ne_zero.mpr (by omega)
  unfold rollingMeanLast
  rw [List.length_replicate, if_pos ⟨hw, h⟩, List.drop_replicate,
    (by omega : n - (n - w) = w), List.sum_replicate, nsmul_eq_mul,
    mul_div_cancel_left₀ c hw0]

/-- The rolling sample variance of a constant series is zero once the
window fits. -/
theorem rollingVarLast_replicate (w n : Nat) (c : ℚ) (hw : 2 ≤ w)
    (h : w ≤ n) :
    rollingVarLast w (List.replicate n c) = some 0 := by
  have hw0 : ((w : ℚ)) ≠ 0 := Nat.cast_ne_zero.mpr (by omega)
  simp only [rollingVarLast, List.length_replicate]
  rw [if_pos ⟨hw, h⟩, List.drop_replicate, (by omega : n - (n - w) = w),
    List.sum_replicate, nsmul_eq_mul, mul_div_cancel_left₀ c hw0,
    List.map_replicate, List.sum_replicate]
  norm_num

/-- The true ranges of a flat series (high = low = close throughout) are
all zero. -/
theorem trueRangesFrom_const (c v : ℚ) (k : Nat) :
    trueRanges.trueRangesFrom { high := c, low := c, close := c, volume := v }
        (List.replicate k { high := c, low := c, close := c, volume := v })
      = List.replicate k 0 := by
  induction k with
  | zero => simp [trueRanges.trueRangesFrom]
  | succ k ih =>
      simp only [List.replicate_succ, trueRanges.trueRangesFrom, ih]
      norm_num

/-- The true-range list of a flat series is all zeros. -/
theorem trueRanges_const (c v : ℚ) (n : Nat) :
    trueRanges (List.replicate n { high := c, low := c, close := c, volume := v })
      = List.replicate n 0 := by
  cases n with
  | zero => rfl
  | succ n =>
      simp only [List.replicate_succ, trueRanges, trueRangesFrom_const]
      norm_num

/-- Field values of calculate_risk_metrics in the branch where the ATR stop
is strictly higher than the fixed-percentage stop. -/
theorem crm_atr_branch (comp price atr : ℚ)
    (h : price * (1 - stop_loss_pct_config) < price - atr * atr_multiplier) :
    (calculate_risk_metrics comp price atr).stop_loss = price - atr * atr_multiplier ∧
    (calculate_risk_metrics comp price atr).stop_loss_method = .ATR ∧
    (calculate_risk_metrics comp price atr).stop_loss_pct
      = (price - (price - atr * atr_multiplier)) / price * 100 ∧
    (calculate_risk_metrics comp price atr).target_price
      = price + (price - (price - atr * atr_multiplier)) * 2 ∧
    (calculate_risk_metrics comp price atr).target_pct
      = (price + (price - (price - atr * atr_multiplier)) * 2 - price) / price * 100 := by
  simp [calculate_risk_metrics, if_pos h]

/-- Field values of calculate_risk_metrics in the branch where the
fixed-percentage stop is chosen. -/
theorem crm_pct_branch (comp price atr : ℚ)
    (h : ¬ price * (1 - stop_loss_pct_config) < price - atr * atr_multiplier) :
    (calculate_risk_metrics comp price atr).stop_loss = price * (1 - stop_loss_pct_config) ∧
    (calculate_risk_metrics comp price atr).stop_loss_method = .fixed_pct ∧
    (calculate_risk_metrics comp price atr).stop_loss_pct = stop_loss_pct_config * 100 ∧
    (calculate_risk_metrics comp price atr).target_price
      = price + (price - price * (1 - stop_loss_pct_config)) * 2 ∧
    (calculate_risk_metrics comp price atr).target_pct
      = (price + (price - price * (1 - stop_loss_pct_config)) * 2 - price) / price * 100 := by
  simp [calculate_risk_metrics, if_neg h]

/-- A rolling mean at the last bar is NaN when the window does not fit. -/
theorem rollingMeanLast_none_of_short (w : Nat) (xs : List ℚ)
    (h : xs.length < w) : rollingMeanLast w xs = none := by
  unfold rollingMeanLast
  exact if_neg (by omega)

/-- A NaN left operand makes the strict greater-than comparison false. -/
theorem optGT_none_left (y : Option ℚ) : optGT none y = false := by
  cases y <;> rfl

/-- A NaN left operand makes the strict less-than comparison false. -/
theorem optLT_none_left (y : Option ℚ) : optLT none y = false := by
  cases y <;> rfl

/-- The close column has one entry per bar. -/
theorem closesOf_length (bars : List PriceBar) :
    (closesOf bars).length = bars.length := List.length_map _ _

/-- diff produces one entry fewer than the close list. -/
theorem deltas_length (closes : List ℚ) :
    (deltas closes).length = closes.length - 1 := by
  simp [deltas, List.length_zipWith, List.length_dropLast]

/-- The gain series has one entry per bar. -/
theorem gains_length (closes : List ℚ) :
    (gains closes).length = closes.length := by
  cases closes with
  | nil => rfl
  | cons c cs => simp [gains, deltas_length]

/-- The loss series has one entry per bar. -/
theorem losses_length (closes : List ℚ) :
    (losses closes).length = closes.length := by
  cases closes with
  | nil => rfl
  | cons c cs => simp [losses, deltas_length]

/-- The true-range tail has one entry per bar. -/
theorem trueRangesFrom_length (prev : PriceBar) (l : List PriceBar) :
    (trueRanges.trueRangesFrom prev l).length = l.length := by
  induction l generalizing prev with
  | nil => rfl
  | cons b rest ih => simp [trueRanges.trueRangesFrom, ih]

/-- The true-range series has one entry per bar. -/
theorem trueRanges_length (bars : List PriceBar) :
    (trueRanges bars).length = bars.length := by
  cases bars with
  | nil => rfl
  | cons b bs => simp [trueRanges, trueRangesFrom_length]

/-- The RSI is NaN when the window does not fit. -/
theorem rsi_none_of_short (closes : List ℚ) (h : closes.length < rsi_period) :
    rsi closes = none := by
  have hg : avg_gain closes = none := by
    unfold avg_gain
    exact rollingMeanLast_none_of_short _ _ (by rw [gains_length]; exact h)
  have hl : avg_loss closes = none := by
    unfold avg_loss
    exact rollingMeanLast_none_of_short _ _ (by rw [losses_length]; exact h)
  unfold rsi
  rw [hg, hl]

/-- On a nonempty series every engine step succeeds and computeAll returns
the IndicatorSet assembled from the per-indicator functions. -/
theorem computeAll_cons (b : PriceBar) (bs : List PriceBar) :
    computeAll (b :: bs) = .ok
      { ma_alignment := ma_alignment_of (closesOf (b :: bs)),
        ma_cross := ma_cross (closesOf (b :: bs)),
        macd := (calculate_macd (b :: bs)).1,
        macd_hist := (calculate_macd (b :: bs)).2,
        rsi := rsi (closesOf (b :: bs)),
        rsi_signal := rsi_signal_of (rsi (closesOf (b :: bs))),
        bollinger := boll_signal (b :: bs),
        volume_ratio := volume_ratio_of (b :: bs),
        volume := volume_signal_of (volume_ratio_of (b :: bs)),
        atr := atr_of (b :: bs) } := by
  have hma : calculate_ma (b :: bs)
      = .ok (ma_alignment_of (closesOf (b :: bs)), ma_cross (closesOf (b :: bs))) := by
    simp [calculate_ma, closesOf]
  have hrsi : calculate_rsi (b :: bs)
      = .ok (rsi (closesOf (b :: bs)), rsi_signal_of (rsi (closesOf (b :: bs)))) := by
    simp [calculate_rsi, closesOf]
  have hboll : calculate_bollinger (b :: bs) = .ok (boll_signal (b :: bs)) := by
    simp [calculate_bollinger, closesOf]
  have hvol : calculate_volume (b :: bs)
      = .ok (volume_ratio_of (b :: bs), volume_signal_of (volume_ratio_of (b :: bs))) := by
    simp [calculate_volume, volumesOf]
  have hatr : calculate_atr (b :: bs) = .ok (atr_of (b :: bs)) := by
    simp [calculate_atr, trueRanges]
  unfold computeAll
  rw [hma, hrsi, hboll, hvol, hatr]

/-! ### Claims -/

/-- C1: for every IndicatorSet (any combination of indicator values and
signal labels, including missing entries), the Trend Scorer returns a value
in [-100, 100]; the rubric contributions are summed first (rawScore, the
unclamped total with the volume clause added last) and the sum is clipped
to the bounds only after all clauses, including the volume clause, have
been added. -/
theorem C1_trend_score_in_bounds (ind : IndicatorSet) :
    -100 ≤ get_trend_score ind ∧ get_trend_score ind ≤ 100 ∧
      get_trend_score ind = max (-100) (min 100 (rawScore ind)) := by
  have h : get_trend_score ind = max (-100) (min 100 (rawScore ind)) := by
    unfold rawScore; exact get_trend_score_eq_clamp ind
  exact ⟨by rw [h]; exact le_max_left _ _,
    by rw [h]; exact max_le (by norm_num) (min_le_left _ _), h⟩

/-- C4: in the Trend Scorer, the ±5 volume clause fires only when the
volume signal is high; it is evaluated after all other rubric clauses have
been summed (preVolumeScore) and adds +5 when that pre-volume partial sum
is > 0 and −5 when it is ≤ 0, using the unclamped partial sum's sign; the
clamp is applied only afterwards. -/
theorem C4_volume_clause_after_sum (ind : IndicatorSet) :
    get_trend_score ind
      = max (-100) (min 100 (preVolumeScore ind +
          (if ind.volume = .high then
            (if 0 < preVolumeScore ind then 5 else -5) else 0))) := by
  simpa only [volumeAdj] using get_trend_score_eq_clamp ind

/-- C2: for every current_price and atr, the chosen stop_loss equals the
numeric maximum of the ATR stop (current_price − atr × 2.0) and the fixed
stop (current_price × (1 − 0.03)), the stop_loss_method label names the
chosen branch (ATR exactly when the ATR stop is strictly higher, else
fixed_pct), and target_price equals
current_price + 2 × (current_price − stop_loss). -/
theorem C2_stop_selection (comp price atr : ℚ) :
    (calculate_risk_metrics comp price atr).stop_loss
        = max (price - atr * atr_multiplier) (price * (1 - stop_loss_pct_config)) ∧
      ((calculate_risk_metrics comp price atr).stop_loss_method = .ATR
        ↔ price * (1 - stop_loss_pct_config) < price - atr * atr_multiplier) ∧
      ((calculate_risk_metrics comp price atr).stop_loss_method = .fixed_pct
        ↔ price - atr * atr_multiplier ≤ price * (1 - stop_loss_pct_config)) ∧
      (calculate_risk_metrics comp price atr).target_price
        = price + 2 * (price - (calculate_risk_metrics comp price atr).stop_loss) := by
  by_cases h : price * (1 - stop_loss_pct_config) < price - atr * atr_multiplier
  · obtain ⟨hs, hm, -, ht, -⟩ := crm_atr_branch comp price atr h
    refine ⟨by rw [hs, max_eq_left h.le], ?_, ?_, by rw [ht, hs]; ring⟩
    · simp [hm, h]
    · simp [hm, not_le.mpr h]
  · obtain ⟨hs, hm, -, ht, -⟩ := crm_pct_branch comp price atr h
    refine ⟨by rw [hs, max_eq_right (not_lt.mp h)], ?_, ?_, by rw [ht, hs]; ring⟩
    · simp [hm, h]
    · simp [hm, not_lt.mp h]

/-- C2 witness: at composite 0, price 100, atr 5 the fixed stop (97) beats
the ATR stop (90), the label is fixed_pct and the target obeys the 1:2
rule. -/
theorem C2_stop_selection_witness :
    (calculate_risk_metrics 0 100 5).stop_loss
        = max (100 - 5 * atr_multiplier) (100 * (1 - stop_loss_pct_config)) ∧
      ((calculate_risk_metrics 0 100 5).stop_loss_method = .ATR
        ↔ 100 * (1 - stop_loss_pct_config) < 100 - 5 * atr_multiplier) ∧
      ((calculate_risk_metrics 0 100 5).stop_loss_method = .fixed_pct
        ↔ 100 - 5 * atr_multiplier ≤ 100 * (1 - stop_loss_pct_config)) ∧
      (calculate_risk_metrics 0 100 5).target_price
        = 100 + 2 * (100 - (calculate_risk_metrics 0 100 5).stop_loss) :=
  C2_stop_selection 0 100 5

/-- C10: for every current_price > 0 and atr ≥ 0, the computed (unrounded)
risk percentages satisfy target_pct = 2 × stop_loss_pct, in both the ATR
branch and the fixed-percentage branch. -/
theorem C10_target_pct_twice_stop_pct (comp price atr : ℚ)
    (hp : 0 < price) (_ha : 0 ≤ atr) :
    (calculate_risk_metrics comp price atr).target_pct
      = 2 * (calculate_risk_metrics comp price atr).stop_loss_pct := by
  have hp0 : price ≠ 0 := ne_of_gt hp
  by_cases h : price * (1 - stop_loss_pct_config) < price - atr * atr_multiplier
  · obtain ⟨-, -, hpct, -, htp⟩ := crm_atr_branch comp price atr h
    rw [hpct, htp]; ring
  · obtain ⟨-, -, hpct, -, htp⟩ := crm_pct_branch comp price atr h
    rw [hpct, htp]
    rw [stop_loss_pct_config]
    field_simp
    ring

/-- C10 witness: price 100, atr 5. -/
theorem C10_target_pct_witness : (0:ℚ) < 100 ∧ (0:ℚ) ≤ 5 ∧
    (calculate_risk_metrics 0 100 5).target_pct
      = 2 * (calculate_risk_metrics 0 100 5).stop_loss_pct :=
  ⟨by norm_num, by norm_num, C10_target_pct_twice_stop_pct 0 100 5 (by norm_num) (by norm_num)⟩

/-- C9: for fixed, strictly ordered thresholds, the composite-score-to-
signal mapping is monotone: whenever score a ≥ score b, the category
assigned to a is at least as strong as the one assigned to b on the
ordering strong-sell < sell < hold < buy < strong-buy. -/
theorem C9_signal_monotone (t : SignalThresholds) (a b : ℚ)
    (hord : t.strong_sell < t.sell ∧ t.sell < t.buy ∧ t.buy < t.strong_buy)
    (hab : b ≤ a) :
    signalRank (generate_signal_cat t b) ≤ signalRank (generate_signal_cat t a) := by
  obtain ⟨h1, h2, h3⟩ := hord
  unfold generate_signal_cat
  split_ifs <;> simp [signalRank] <;> linarith

/-- C5: for every close series whose average loss over the RSI window is
zero while the average gain is positive, the computed RSI equals 100 (the
source's float division produces +infinity for the relative strength and
100 − 100/(1+∞) = 100) and no error is raised — the result is a present
value, not an exception. -/
theorem C5_rsi_100_on_zero_loss (closes : List ℚ) (g : ℚ)
    (hg : avg_gain closes = some g) (hgpos : 0 < g)
    (hl : avg_loss closes = some 0) :
    rsi closes = some 100 := by
  unfold rsi
  rw [hg, hl]
  simp [hgpos]

/-- C5 witness: the strictly monotonically rising series 1, 2, …, 15
covers the 14-bar lookback window, has average gain 1 and average loss 0,
and its RSI is 100. -/
theorem C5_rsi_100_witness :
    avg_gain [1,2,3,4,5,6,7,8,9,10,11,12,13,14,15] = some 1 ∧
      (0:ℚ) < 1 ∧
      avg_loss [1,2,3,4,5,6,7,8,9,10,11,12,13,14,15] = some 0 ∧
      rsi [1,2,3,4,5,6,7,8,9,10,11,12,13,14,15] = some 100 :=
  ⟨by norm_num [avg_gain, gains, deltas, rsi_period, rollingMeanLast,
      List.zipWith, List.dropLast, List.sum_cons, List.sum_nil],
    by norm_num,
    by norm_num [avg_loss, losses, deltas, rsi_period, rollingMeanLast,
      List.zipWith, List.dropLast, List.sum_cons, List.sum_nil],
    C5_rsi_100_on_zero_loss [1,2,3,4,5,6,7,8,9,10,11,12,13,14,15] 1
      (by norm_num [avg_gain, gains, deltas, rsi_period, rollingMeanLast,
        List.zipWith, List.dropLast, List.sum_cons, List.sum_nil])
      (by norm_num)
      (by norm_num [avg_loss, losses, deltas, rsi_period, rollingMeanLast,
        List.zipWith, List.dropLast, List.sum_cons, List.sum_nil])⟩

/-- C3 counterexample: on the 12-bar series with eleven closes at 100
followed by one at 200, the rule stated by the claim (crossover from the
two shortest windows, 5 and 10) yields golden_cross, but the source
(which compares MA5 with MA20, lines 45-57) yields none, because MA20 is
still NaN at 12 bars. -/
theorem C3_counterexample :
    ma_cross_spec [100,100,100,100,100,100,100,100,100,100,100,200]
        = some .golden_cross ∧
      ma_cross [100,100,100,100,100,100,100,100,100,100,100,200]
        = some .no_cross := by
  constructor <;>
    norm_num [ma_cross_spec, ma_cross, crossSignalOf, rollingMeanLast,
      optLE, optGT, optGE, optLT, List.dropLast, List.sum_cons, List.sum_nil]

/-- C3 amended: for every series of at least 2 bars, the MA crossover
signal is computed from windows 5 and 20 (the shortest and third-shortest
of the configured list [5,10,20,50]), not the two shortest, at the last two
bars: golden_cross iff MA5 was ≤ MA20 one bar ago and is strictly greater
now, death_cross for the mirror condition, else none.  Stated here for
series long enough (≥ 21 bars) that both window means exist at both bars;
below that the NaN comparisons make the signal none. -/
theorem C3_ma_cross_uses_ma5_ma20 (closes : List ℚ) (h : 21 ≤ closes.length) :
    ∃ m5p m20p m5c m20c : ℚ,
      rollingMeanLast 5 closes.dropLast = some m5p ∧
      rollingMeanLast 20 closes.dropLast = some m20p ∧
      rollingMeanLast 5 closes = some m5c ∧
      rollingMeanLast 20 closes = some m20c ∧
      (ma_cross closes = some .golden_cross ↔ m5p ≤ m20p ∧ m20c < m5c) ∧
      (ma_cross closes = some .death_cross ↔
        ¬(m5p ≤ m20p ∧ m20c < m5c) ∧ m20p ≤ m5p ∧ m5c < m20c) ∧
      (ma_cross closes = some .no_cross ↔
        ¬(m5p ≤ m20p ∧ m20c < m5c) ∧ ¬(m20p ≤ m5p ∧ m5c < m20c)) := by
  have hd : closes.dropLast.length = closes.length - 1 := closes.length_dropLast
  have e5p := rollingMeanLast_eq_of_le 5 closes.dropLast (by norm_num) (by omega)
  have e20p := rollingMeanLast_eq_of_le 20 closes.dropLast (by norm_num) (by omega)
  have e5c := rollingMeanLast_eq_of_le 5 closes (by norm_num) (by omega)
  have e20c := rollingMeanLast_eq_of_le 20 closes (by norm_num) (by omega)
  refine ⟨_, _, _, _, e5p, e20p, e5c, e20c, ?_⟩
  unfold ma_cross
  rw [if_pos (by omega : 2 ≤ closes.length), e5p, e20p, e5c, e20c]
  unfold crossSignalOf optLE optGE optGT optLT
  simp only [Bool.and_eq_true, decide_eq_true_eq, Option.some.injEq]
  split_ifs with h1 h2 <;> simp_all

/-- C3 amended witness: a flat 21-bar series has every mean equal to 100
and the signal is none. -/
theorem C3_ma_cross_witness :
    21 ≤ (List.replicate 21 (100:ℚ)).length ∧
      ∃ m5p m20p m5c m20c : ℚ,
        rollingMeanLast 5 (List.replicate 21 (100:ℚ)).dropLast = some m5p ∧
        rollingMeanLast 20 (List.replicate 21 (100:ℚ)).dropLast = some m20p ∧
        rollingMeanLast 5 (List.replicate 21 (100:ℚ)) = some m5c ∧
        rollingMeanLast 20 (List.replicate 21 (100:ℚ)) = some m20c ∧
        (ma_cross (List.replicate 21 (100:ℚ)) = some .golden_cross ↔
          m5p ≤ m20p ∧ m20c < m5c) ∧
        (ma_cross (List.replicate 21 (100:ℚ)) = some .death_cross ↔
          ¬(m5p ≤ m20p ∧ m20c < m5c) ∧ m20p ≤ m5p ∧ m5c < m20c) ∧
        (ma_cross (List.replicate 21 (100:ℚ)) = some .no_cross ↔
          ¬(m5p ≤ m20p ∧ m20c < m5c) ∧ ¬(m20p ≤ m5p ∧ m5c < m20c)) :=
  ⟨by simp, C3_ma_cross_uses_ma5_ma20 (List.replicate 21 (100:ℚ)) (by simp)⟩

/-- C6: for a series whose Bollinger bands coincide at the latest bar
(constant closes over the Bollinger period: rolling mean c, rolling
variance 0, hence standard deviation 0 and upper = lower = c), the
bb_position expression of line 133 evaluates to 0/0, i.e. NaN (`none`),
not to the neutral midpoint 50 the specification prescribes — the code has
no degenerate-width guard. -/
theorem C6_bb_position_zero_width (c : ℚ) (n : Nat) (h : bb_period ≤ n) :
    rollingMeanLast bb_period (List.replicate n c) = some c ∧
      rollingVarLast bb_period (List.replicate n c) = some 0 ∧
      bb_position_of c c c = none ∧
      bb_position_of c c c ≠ some 50 := by
  refine ⟨rollingMeanLast_replicate bb_period n c (by norm_num [bb_period]) h,
    rollingVarLast_replicate bb_period n c (by norm_num [bb_period]) h, ?_, ?_⟩ <;>
      simp [bb_position_of]

/-- C6 witness: twenty constant closes at 100. -/
theorem C6_bb_position_witness :
    bb_period ≤ 20 ∧
      (rollingMeanLast bb_period (List.replicate 20 (100:ℚ)) = some 100 ∧
        rollingVarLast bb_period (List.replicate 20 (100:ℚ)) = some 0 ∧
        bb_position_of 100 100 100 = none ∧
        bb_position_of 100 100 100 ≠ some 50) :=
  ⟨by norm_num [bb_period],
    C6_bb_position_zero_width 100 20 (by norm_num [bb_period])⟩

/-- C7 counterexample: on a flat series the ATR is 0, so the ATR stop
equals current_price, which is strictly higher than the 3% fixed stop for
any positive price; the source therefore labels the stop ATR, not
fixed_pct as the claim states. -/
theorem C7_counterexample :
    atr_of (List.replicate 14 { high := 100, low := 100, close := 100, volume := 5 })
        = some 0 ∧
      (calculate_risk_metrics 0 100 0).stop_loss_method = .ATR ∧
      (calculate_risk_metrics 0 100 0).stop_loss_method ≠ .fixed_pct := by
  have hbranch : (100:ℚ) * (1 - stop_loss_pct_config) < 100 - 0 * atr_multiplier := by
    norm_num [stop_loss_pct_config, atr_multiplier]
  obtain ⟨-, hm, -, -, -⟩ := crm_atr_branch 0 100 0 hbranch
  refine ⟨?_, hm, by rw [hm]; simp⟩
  unfold atr_of
  rw [trueRanges_const]
  exact rollingMeanLast_replicate rsi_period 14 0 (by norm_num [rsi_period])
    (by norm_num [rsi_period])

/-- C7 amended: for a flat series (high = low = close constant over the
ATR window) the ATR is 0 and the chosen stop-loss method is ATR — not
fixed_pct — because the ATR stop collapses to current_price, which is
strictly HIGHER than the fixed-percentage stop for any positive price; the
chosen stop then equals current_price itself. -/
theorem C7_flat_series_method_atr (c v comp : ℚ) (n : Nat)
    (hc : 0 < c) (hn : rsi_period ≤ n) :
    atr_of (List.replicate n { high := c, low := c, close := c, volume := v })
        = some 0 ∧
      (calculate_risk_metrics comp c 0).stop_loss_method = .ATR ∧
      (calculate_risk_metrics comp c 0).stop_loss = c := by
  have hbranch : c * (1 - stop_loss_pct_config) < c - 0 * atr_multiplier := by
    rw [stop_loss_pct_config, atr_multiplier]
    linarith
  obtain ⟨hs, hm, -, -, -⟩ := crm_atr_branch comp c 0 hbranch
  refine ⟨?_, hm, by rw [hs]; ring⟩
  unfold atr_of
  rw [trueRanges_const]
  exact rollingMeanLast_replicate rsi_period n 0 (by norm_num [rsi_period]) hn

/-- C7 amended witness: a flat 14-bar series at price 100. -/
theorem C7_flat_series_witness :
    (0:ℚ) < 100 ∧ rsi_period ≤ 14 ∧
      (atr_of (List.replicate 14 { high := 100, low := 100, close := 100, volume := 5 })
          = some 0 ∧
        (calculate_risk_metrics 0 100 0).stop_loss_method = .ATR ∧
        (calculate_risk_metrics 0 100 0).stop_loss = 100) :=
  ⟨by norm_num, by norm_num [rsi_period],
    C7_flat_series_method_atr 100 5 0 14 (by norm_num) (by norm_num [rsi_period])⟩

/-- C8 counterexample: on the EMPTY price series the engine raises — the
first unguarded `.iloc[-1]` (calculate_ma, line 39) hits an empty frame and
throws IndexError, modelled as the error case — so the claim's "series of
any length" fails at length 0. -/
theorem C8_counterexample : computeAll [] = .error () := by
  simp [computeAll, calculate_ma, closesOf]

/-- C8 amended: for every NON-EMPTY price series, computing all indicators
raises no exception; each indicator lacking sufficient history is reported
as a not-available value (NaN/absent, modelled none: the RSI and ATR below
their 14-bar window, the crossover and MACD entries below 2 bars, MA
alignment mixed below the shortest window), every missing indicator
contributes exactly 0 to the trend score (the five rubric clauses at their
missing values), and an IndicatorSet with every entry missing scores 0.
The empty series errors (see the counterexample). -/
theorem C8_no_raise_nonempty :
    (∀ bars : List PriceBar, bars ≠ [] →
      ∃ ind : IndicatorSet, computeAll bars = .ok ind ∧
        (bars.length < rsi_period → ind.rsi = none ∧ ind.atr = none) ∧
        (bars.length < 2 →
          ind.ma_cross = none ∧ ind.macd = none ∧ ind.macd_hist = none) ∧
        (bars.length < 5 → ind.ma_alignment = .mixed)) ∧
      crossClause none = 0 ∧ macdClause none none = 0 ∧ rsiClause none = 0 ∧
      alignClause .mixed = 0 ∧ bollClause .within_bands = 0 ∧
      get_trend_score missingIndicatorSet = 0 := by
  refine ⟨?_, by rfl, by rfl, by rfl, by rfl, by rfl, ?_⟩
  · intro bars hne
    cases bars with
    | nil => exact absurd rfl hne
    | cons b bs =>
      refine ⟨_, computeAll_cons b bs, ?_, ?_, ?_⟩
      · intro hlen
        constructor
        · show rsi (closesOf (b :: bs)) = none
          exact rsi_none_of_short _ (by rw [closesOf_length]; exact hlen)
        · show atr_of (b :: bs) = none
          unfold atr_of
          exact rollingMeanLast_none_of_short _ _
            (by rw [trueRanges_length]; exact hlen)
      · intro hlen
        have hcl : ¬ 2 ≤ (closesOf (b :: bs)).length := by
          rw [closesOf_length]; omega
        refine ⟨?_, ?_, ?_⟩
        · show ma_cross (closesOf (b :: bs)) = none
          unfold ma_cross
          exact if_neg hcl
        · show (calculate_macd (b :: bs)).1 = none
          simp only [calculate_macd]
          rw [if_neg hcl]
        · show (calculate_macd (b :: bs)).2 = none
          simp only [calculate_macd]
          rw [if_neg hcl]
      · intro hlen
        show ma_alignment_of (closesOf (b :: bs)) = .mixed
        have h5 : rollingMeanLast 5 (closesOf (b :: bs)) = none :=
          rollingMeanLast_none_of_short _ _ (by rw [closesOf_length]; omega)
        simp only [ma_alignment_of, h5]
        simp [optGT_none_left, optLT_none_left]
  · simp only [get_trend_score, missingIndicatorSet, optGT, optLT, optLE]
    simp only [reduceCtorEq, if_false, Option.some.injEq, if_neg]
    norm_num [min_def, max_def]

/-- C8 witness: the single-bar series computes without error and all its
windowed indicators are missing. -/
theorem C8_no_raise_witness :
    ([({ high := 101, low := 99, close := 100, volume := 5 } : PriceBar)] ≠ []) ∧
      ∃ ind : IndicatorSet,
        computeAll [{ high := 101, low := 99, close := 100, volume := 5 }] = .ok ind ∧
        ([({ high := 101, low := 99, close := 100, volume := 5 } : PriceBar)].length
            < rsi_period → ind.rsi = none ∧ ind.atr = none) ∧
        ([({ high := 101, low := 99, close := 100, volume := 5 } : PriceBar)].length < 2 →
          ind.ma_cross = none ∧ ind.macd = none ∧ ind.macd_hist = none) ∧
        ([({ high := 101, low := 99, close := 100, volume := 5 } : PriceBar)].length < 5 →
          ind.ma_alignment = .mixed) :=
  ⟨by simp,
    C8_no_raise_nonempty.1 [{ high := 101, low := 99, close := 100, volume := 5 }]
      (by simp)⟩

/-- C9 witness: the default thresholds are strictly ordered and the scores
10 ≤ 50 map to hold ≤ buy. -/
theorem C9_signal_monotone_witness :
    (SIGNAL_THRESHOLDS.strong_sell < SIGNAL_THRESHOLDS.sell ∧
      SIGNAL_THRESHOLDS.sell < SIGNAL_THRESHOLDS.buy ∧
      SIGNAL_THRESHOLDS.buy < SIGNAL_THRESHOLDS.strong_buy) ∧
    (10:ℚ) ≤ 50 ∧
    signalRank (generate_signal_cat SIGNAL_THRESHOLDS 10)
      ≤ signalRank (generate_signal_cat SIGNAL_THRESHOLDS 50) :=
  ⟨by norm_num [SIGNAL_THRESHOLDS], by norm_num,
    C9_signal_monotone SIGNAL_THRESHOLDS 50 10
      (by norm_num [SIGNAL_THRESHOLDS]) (by norm_num)⟩

end StockAgent
